import Mathlib

/-!
Verification of the YouTube API batch-processing gateway
(`youtube_api_handler.py` and collaborators) against its natural-language
specification.  The Python source is shallowly embedded: pure helpers become
Lean functions, the TTL cache and the caching decorator become explicit
state-passing functions over an association-list store, wall-clock time is an
explicit `Nat` parameter, HTTP traffic is a scripted list of outcomes, and
Python `float` arithmetic on engagement rates is modelled exactly over `ℚ`.
-/

namespace YT

/-! ## Python values and `str()` representation

`cache_response` (youtube_api_handler.py lines 58-96) builds its cache key from
`str(args + tuple(kwargs.items()))`.  We model the Python values that can occur
as arguments and Python's `str`/`repr` of them. -/

mutual

/-- A Python value appearing as a (positional or keyword) argument. -/
inductive PyVal where
  | str (s : String)
  | int (n : Int)
  | tuple (xs : PyArgs)
  | list (xs : PyArgs)

/-- A sequence of Python values (the element list of a tuple or list). -/
inductive PyArgs where
  | nil
  | cons (v : PyVal) (rest : PyArgs)

end

/-- Append two value sequences (models tuple concatenation `args + ...`). -/
def PyArgs.append : PyArgs → PyArgs → PyArgs
  | .nil, ys => ys
  | .cons x xs, ys => .cons x (xs.append ys)

/-- The single-quote character used by Python `repr` of strings. -/
def pyQuote : String := String.singleton (Char.ofNat 39)

mutual

/-- Python `repr` of a value (strings assumed ASCII without quotes or escapes,
which covers every argument the handler is called with). -/
def pyRepr : PyVal → String
  | .str s => pyQuote ++ s ++ pyQuote
  | .int n => toString n
  | .tuple .nil => "()"
  | .tuple (.cons x .nil) => "(" ++ pyRepr x ++ ",)"
  | .tuple (.cons x (.cons y ys)) =>
      "(" ++ String.intercalate ", " (pyRepr x :: pyRepr y :: pyReprList ys) ++ ")"
  | .list xs => "[" ++ String.intercalate ", " (pyReprList xs) ++ "]"

/-- `repr` of each element of a sequence. -/
def pyReprList : PyArgs → List String
  | .nil => []
  | .cons v rest => pyRepr v :: pyReprList rest

end

/-! ## MD5

`cache_response` hashes the argument representation with `hashlib.md5` and
keys the cache on the hex digest.  MD5 (RFC 1321) is implemented here over
byte lists, with 32-bit words as `Nat` reduced mod `2^32`. -/

/-- The 64 per-round additive constants of MD5 (RFC 1321). -/
def md5K : List Nat :=
  [0xd76aa478, 0xe8c7b756, 0x242070db, 0xc1bdceee,
   0xf57c0faf, 0x4787c62a, 0xa8304613, 0xfd469501,
   0x698098d8, 0x8b44f7af, 0xffff5bb1, 0x895cd7be,
   0x6b901122, 0xfd987193, 0xa679438e, 0x49b40821,
   0xf61e2562, 0xc040b340, 0x265e5a51, 0xe9b6c7aa,
   0xd62f105d, 0x02441453, 0xd8a1e681, 0xe7d3fbc8,
   0x21e1cde6, 0xc33707d6, 0xf4d50d87, 0x455a14ed,
   0xa9e3e905, 0xfcefa3f8, 0x676f02d9, 0x8d2a4c8a,
   0xfffa3942, 0x8771f681, 0x6d9d6122, 0xfde5380c,
   0xa4beea44, 0x4bdecfa9, 0xf6bb4b60, 0xbebfbc70,
   0x289b7ec6, 0xeaa127fa, 0xd4ef3085, 0x04881d05,
   0xd9d4d039, 0xe6db99e5, 0x1fa27cf8, 0xc4ac5665,
   0xf4292244, 0x432aff97, 0xab9423a7, 0xfc93a039,
   0x655b59c3, 0x8f0ccc92, 0xffeff47d, 0x85845dd1,
   0x6fa87e4f, 0xfe2ce6e0, 0xa3014314, 0x4e0811a1,
   0xf7537e82, 0xbd3af235, 0x2ad7d2bb, 0xeb86d391]

/-- The 64 per-round left-rotation amounts of MD5. -/
def md5S : List Nat :=
  [7, 12, 17, 22, 7, 12, 17, 22, 7, 12, 17, 22, 7, 12, 17, 22,
   5, 9, 14, 20, 5, 9, 14, 20, 5, 9, 14, 20, 5, 9, 14, 20,
   4, 11, 16, 23, 4, 11, 16, 23, 4, 11, 16, 23, 4, 11, 16, 23,
   6, 10, 15, 21, 6, 10, 15, 21, 6, 10, 15, 21, 6, 10, 15, 21]

/-- Bitwise complement on 32-bit words represented as `Nat < 2^32`. -/
def not32 (x : Nat) : Nat := 4294967295 - x

/-- Left-rotate a 32-bit word by `n` places (`0 ≤ n < 32`). -/
def rotl32 (x n : Nat) : Nat := ((x <<< n) % 4294967296) + (x >>> (32 - n))

/-- The MD5 nonlinear mixing function for round `i`. -/
def md5F (i b c d : Nat) : Nat :=
  if i < 16 then (b &&& c) ||| (not32 b &&& d)
  else if i < 32 then (d &&& b) ||| (not32 d &&& c)
  else if i < 48 then b ^^^ c ^^^ d
  else c ^^^ (b ||| not32 d)

/-- The message-word index accessed in round `i`. -/
def md5G (i : Nat) : Nat :=
  if i < 16 then i
  else if i < 32 then (5 * i + 1) % 16
  else if i < 48 then (3 * i + 5) % 16
  else (7 * i) % 16

/-- Read the `g`-th little-endian 32-bit word of a 64-byte chunk. -/
def md5Word (chunk : List Nat) (g : Nat) : Nat :=
  chunk.getD (4 * g) 0 + 256 * chunk.getD (4 * g + 1) 0 +
    65536 * chunk.getD (4 * g + 2) 0 + 16777216 * chunk.getD (4 * g + 3) 0

/-- One MD5 round: transform the running `(A, B, C, D)` state. -/
def md5Round (chunk : List Nat) (st : Nat × Nat × Nat × Nat) (i : Nat) :
    Nat × Nat × Nat × Nat :=
  let a := st.1
  let b := st.2.1
  let c := st.2.2.1
  let d := st.2.2.2
  let f := (md5F i b c d + a + md5K.getD i 0 + md5Word chunk (md5G i)) % 4294967296
  (d, (b + rotl32 f (md5S.getD i 0)) % 4294967296, b, c)

/-- Process one 64-byte chunk: 64 rounds, then add into the state mod `2^32`. -/
def md5Block (chunk : List Nat) (st : Nat × Nat × Nat × Nat) :
    Nat × Nat × Nat × Nat :=
  let r := (List.range 64).foldl (md5Round chunk) st
  ((st.1 + r.1) % 4294967296, (st.2.1 + r.2.1) % 4294967296,
   (st.2.2.1 + r.2.2.1) % 4294967296, (st.2.2.2 + r.2.2.2) % 4294967296)

/-- Fold `md5Block` over the padded message, 64 bytes at a time (the padded
length is always a multiple of 64). -/
def md5Chunks (msg : List Nat) (st : Nat × Nat × Nat × Nat) :
    Nat × Nat × Nat × Nat :=
  (List.range (msg.length / 64)).foldl
    (fun s i => md5Block ((msg.drop (64 * i)).take 64) s) st

/-- MD5 padding: `0x80`, zeros to 56 mod 64, then the 64-bit little-endian
bit length. -/
def md5Pad (msg : List Nat) : List Nat :=
  let len := msg.length
  let zeros := (120 - (len + 1) % 64) % 64
  let bits := (8 * len) % 18446744073709551616
  msg ++ [0x80] ++ List.replicate zeros 0 ++
    (List.range 8).map (fun i => (bits >>> (8 * i)) % 256)

/-- MD5 of a byte list, as the final `(A, B, C, D)` word state. -/
def md5Bytes (msg : List Nat) : Nat × Nat × Nat × Nat :=
  md5Chunks (md5Pad msg) (0x67452301, 0xefcdab89, 0x98badcfe, 0x10325476)

/-- Lowercase hex digit. -/
def hexDigit (n : Nat) : Char :=
  if n < 10 then Char.ofNat (48 + n) else Char.ofNat (87 + n)

/-- Two-digit lowercase hex of a byte. -/
def byteHex (b : Nat) : String :=
  String.singleton (hexDigit (b / 16)) ++ String.singleton (hexDigit (b % 16))

/-- Little-endian hex rendering of a 32-bit word, as in an MD5 digest. -/
def wordHexLE (w : Nat) : String :=
  byteHex (w % 256) ++ byteHex ((w >>> 8) % 256) ++
    byteHex ((w >>> 16) % 256) ++ byteHex ((w >>> 24) % 256)

/-- `hashlib.md5(s.encode()).hexdigest()` for an ASCII string `s`. -/
def md5hex (s : String) : String :=
  let r := md5Bytes (s.data.map Char.toNat)
  wordHexLE r.1 ++ wordHexLE r.2.1 ++ wordHexLE r.2.2.1 ++ wordHexLE r.2.2.2

/-- Keyword arguments as `dict.items()`: a sequence of `(name, value)` pair
tuples in insertion order. -/
def kwargsItems : List (String × PyVal) → PyArgs
  | [] => .nil
  | (k, v) :: rest => .cons (.tuple (.cons (.str k) (.cons v .nil))) (kwargsItems rest)

/-- The cache key computed by `cache_response` (line 64):
`f"{func.__name__}_{hashlib.md5(str(args + tuple(kwargs.items())).encode()).hexdigest()}"`. -/
def cacheKey (funcName : String) (args : PyArgs) (kwargs : List (String × PyVal)) : String :=
  funcName ++ "_" ++ md5hex (pyRepr (.tuple (args.append (kwargsItems kwargs))))

/-! ## The TTL cache (`CacheEntry`, `SimpleCache`, lines 22-56)

`datetime.now()` becomes an explicit `now : Nat` argument; the store is an
association list with at most one binding per key (Python `dict` semantics:
assignment replaces, `del` removes). -/

/-- `CacheEntry` (lines 22-27): payload, creation time, time-to-live. -/
structure CacheEntry (α : Type) where
  data : α
  timestamp : Nat
  ttl : Nat

/-- `CacheEntry.is_expired` (lines 29-30):
`datetime.now() > self.timestamp + timedelta(seconds=self.ttl)`. -/
def CacheEntry.is_expired (e : CacheEntry α) (now : Nat) : Bool :=
  now > e.timestamp + e.ttl

/-- Remove every binding of `key` (Python `del self._cache[key]`; the store
keeps one binding per key, so this removes exactly the entry for `key`). -/
def eraseKey (key : String) (l : List (String × CacheEntry α)) :
    List (String × CacheEntry α) :=
  l.filter (fun p => p.1 != key)

/-- `SimpleCache` (lines 32-36): store plus hit/miss counters. -/
structure SimpleCache (α : Type) where
  store : List (String × CacheEntry α)
  hits : Nat
  misses : Nat

/-- The empty cache (`SimpleCache.__init__`, lines 34-36). -/
def SimpleCache.empty : SimpleCache α := ⟨[], 0, 0⟩

/-- `SimpleCache.get` (lines 38-47): a present, non-expired entry counts a hit
and returns its data; an expired entry is deleted; every other outcome counts
a miss and returns `None`. -/
def SimpleCache.get (c : SimpleCache α) (key : String) (now : Nat) :
    Option α × SimpleCache α :=
  match c.store.lookup key with
  | some entry =>
      if !(entry.is_expired now) then
        (some entry.data, { c with hits := c.hits + 1 })
      else
        (none, { c with store := eraseKey key c.store, misses := c.misses + 1 })
  | none => (none, { c with misses := c.misses + 1 })

/-- `SimpleCache.set` (lines 49-50): store `CacheEntry(value, datetime.now(), ttl)`
under `key`, replacing any previous binding. -/
def SimpleCache.set (c : SimpleCache α) (key : String) (value : α)
    (ttl : Nat) (now : Nat) : SimpleCache α :=
  { c with store := (key, ⟨value, now, ttl⟩) :: eraseKey key c.store }

/-! ## The caching decorator (`cache_response`, lines 58-96)

The wrapped function body is modelled by its pure outcome `fetch : Option α`
(`None` when the underlying call produced no data).  `called` records whether
the wrapper fell through to executing the function. -/

/-- The `{'data': ..., 'from_cache': ..., 'cache_status': ...}` record the
wrapper returns. -/
structure CachedResult (α : Type) where
  data : Option α
  from_cache : Bool
  cache_status : String

/-- Outcome of one pass through the `cache_response` wrapper. -/
structure CacheCallOutcome (α : Type) where
  result : CachedResult α
  called : Bool
  cache : SimpleCache α

/-- The `cache_response` wrapper body (lines 62-94): try the cache under
`key`; on a hit return the cached data with status `hit`; otherwise run the
function, cache a non-`None` result with the configured `ttl`, and return it
with status `miss`; a `None` result is returned uncached with status `miss`. -/
def cacheResponse (c : SimpleCache α) (key : String) (ttl : Nat) (now : Nat)
    (fetch : Option α) : CacheCallOutcome α :=
  match c.get key now with
  | (some v, c1) => ⟨⟨some v, true, "hit"⟩, false, c1⟩
  | (none, c1) =>
      match fetch with
      | some r => ⟨⟨some r, false, "miss"⟩, true, c1.set key r ttl now⟩
      | none => ⟨⟨none, false, "miss"⟩, true, c1⟩

/-! ## Upstream JSON payloads and Python `int()` (for the response formatters) -/

/-- A JSON value as decoded by `response.json()`. -/
inductive JVal where
  | null
  | bool (b : Bool)
  | int (n : Int)
  | str (s : String)
  | obj (fields : List (String × JVal))
  | arr (xs : List JVal)

/-- Python truthiness of a decoded JSON value (`not x`). -/
def jTruthy : JVal → Bool
  | .null => false
  | .bool b => b
  | .int n => n != 0
  | .str s => s != ""
  | .obj fields => !fields.isEmpty
  | .arr xs => !xs.isEmpty

/-- `d.get(k, default)` on a decoded JSON dict; `none` models the
`AttributeError` Python raises when `d` is not a dict. -/
def pyDictGet (v : JVal) (key : String) (dflt : JVal) : Option JVal :=
  match v with
  | .obj fields => some ((fields.lookup key).getD dflt)
  | _ => none

/-- Digits-only decimal value of a character list. -/
def digitsToNat (cs : List Char) : Nat :=
  cs.foldl (fun acc c => acc * 10 + (c.toNat - 48)) 0

/-- Strip leading and trailing whitespace from a character list (Python
`str.strip()` on ASCII text). -/
def stripWs (cs : List Char) : List Char :=
  ((cs.dropWhile Char.isWhitespace).reverse.dropWhile Char.isWhitespace).reverse

/-- Python `int(s)` for a string: optional sign, then a non-empty digit run
(surrounding whitespace stripped); anything else raises (`none`). -/
def pyIntOfString (s : String) : Option Int :=
  match stripWs s.data with
  | [] => none
  | c :: rest =>
      if c = Char.ofNat 45 then
        if rest ≠ [] ∧ rest.all Char.isDigit then some (-(digitsToNat rest : Int)) else none
      else if c = Char.ofNat 43 then
        if rest ≠ [] ∧ rest.all Char.isDigit then some (digitsToNat rest : Int) else none
      else if (c :: rest).all Char.isDigit then some (digitsToNat (c :: rest) : Int)
      else none

/-- Python `int(x)` on a decoded JSON value: integers pass through, booleans
coerce, integer-literal strings parse; everything else raises (`none`). -/
def pyInt : JVal → Option Int
  | .int n => some n
  | .bool b => some (if b then 1 else 0)
  | .str s => pyIntOfString s
  | _ => none

/-- The numeric statistics fields of `_format_video_response` (lines 570-572). -/
structure VideoStats where
  view_count : Int
  like_count : Int
  comment_count : Int

/-- The numeric statistics of `_format_video_response` (lines 550-579):
`int(video_data.get('statistics', {}).get(field, 0))` for the view, like and
comment counts.  `none` models the `ValueError` Python raises from `int()`
on a non-numeric present value. -/
def formatVideoStatistics (video_data : JVal) : Option VideoStats := do
  let stats ← pyDictGet video_data "statistics" (.obj [])
  let v ← pyInt (← pyDictGet stats "viewCount" (.int 0))
  let l ← pyInt (← pyDictGet stats "likeCount" (.int 0))
  let c ← pyInt (← pyDictGet stats "commentCount" (.int 0))
  pure ⟨v, l, c⟩

/-- The numeric statistics fields of `_format_channel_response`
(lines 528-530 and 542-545). -/
structure ChannelStats where
  view_count : Int
  subscriber_count : Int
  video_count : Int
  avg_views_per_video : Int
  sub_to_video_quotient : Int  -- source field name: subscriber_to_video_<ratio>

/-- The numeric statistics of `_format_channel_response` (lines 488-548):
`int(statistics.get(field, 0))` for view/subscriber/video counts and the two
`engagement_data` floor divisions, which re-read `videoCount` with default 1
(`int(statistics.get('videoCount', 1))`).  `none` models a raised
`ValueError`. -/
def formatChannelStatistics (channel_data : JVal) : Option ChannelStats := do
  let stats ← pyDictGet channel_data "statistics" (.obj [])
  let v ← pyInt (← pyDictGet stats "viewCount" (.int 0))
  let s ← pyInt (← pyDictGet stats "subscriberCount" (.int 0))
  let vc ← pyInt (← pyDictGet stats "videoCount" (.int 0))
  let vc1 ← pyInt (← pyDictGet stats "videoCount" (.int 1))
  pure ⟨v, s, vc, Int.fdiv v (max vc1 1), Int.fdiv s (max vc1 1)⟩

/-! ## Language name resolution (`_get_full_language_name`, lines 158-181) -/

/-- Python `s.lower()` for ASCII strings (char-by-char lowercasing). -/
def pyLower (s : String) : String := ⟨s.data.map Char.toLower⟩

/-- Python `s.upper()` for ASCII strings (char-by-char uppercasing). -/
def pyUpper (s : String) : String := ⟨s.data.map Char.toUpper⟩

/-- Python `s.split(sep)[0]` for a single-character separator: everything
before the first occurrence of `sep` (the whole string when absent). -/
def splitFirst (s : String) (sep : Char) : String :=
  ⟨s.data.takeWhile (fun ch => ch != sep)⟩

/-- `_get_full_language_name` (lines 158-181): exact table lookup, then the
lowercased code, then the lowercased code with everything after the first
hyphen stripped (`code.split('-')[0]`), finally the uppercased original code;
an empty code resolves to `"Unknown"`.  The code→name table
(`self.language_mappings`, loaded at init from `languagelist.json`) is passed
explicitly. -/
def getFullLanguageName (mappings : List (String × String))
    (language_code : String) : String :=
  if language_code = "" then "Unknown"
  else
    let code := pyLower language_code
    match mappings.lookup language_code with
    | some name => name
    | none =>
        match mappings.lookup code with
        | some name => name
        | none =>
            match mappings.lookup (splitFirst code (Char.ofNat 45)) with
            | some name => name
            | none => pyUpper language_code

/-! ## Analytics (`_calculate_engagement_rate`, `_categorize_videos_by_type`,
`_analyze_channel_type`, `_generate_final_metrics`)

Engagement arithmetic is carried out exactly over `ℚ`; Python's
`round(x, 4)` (round-half-to-even at 4 decimal places) is `pyRound4`. -/

/-- Round-half-to-even to an integer. -/
def roundHalfEven (q : ℚ) : ℤ :=
  let f := ⌊q⌋
  let r := q - f
  if r < 1/2 then f
  else if 1/2 < r then f + 1
  else if f % 2 = 0 then f else f + 1

/-- Python `round(x, 4)`. -/
def pyRound4 (q : ℚ) : ℚ := (roundHalfEven (q * 10000) : ℚ) / 10000

/-- Python `round(x, 1)`. -/
def pyRound1 (q : ℚ) : ℚ := (roundHalfEven (q * 10) : ℚ) / 10

/-- A formatted video as the analytics layer consumes it: the counts from
`_format_video_response` plus the `video_type` tag merged from the RSS feed. -/
structure FVideo where
  view_count : Int
  like_count : Int
  comment_count : Int
  video_type : String
deriving DecidableEq

/-- `_calculate_engagement_rate` (lines 768-787): 0 for an empty list,
non-positive subscriber count or non-positive window, else
`round((sum of likes+comments over the first video_count videos)
/ subscriber_count * 100, 4)`. -/
def calculateEngagementRate (videos : List FVideo) (subscriber_count : Int)
    (video_count : Int) : ℚ :=
  if videos.isEmpty || subscriber_count ≤ 0 || video_count ≤ 0 then 0
  else
    let recent := videos.take video_count.toNat
    if recent.isEmpty then 0
    else
      let total : Int :=
        (recent.map (fun v => v.like_count + v.comment_count)).sum
      pyRound4 ((total : ℚ) / (subscriber_count : ℚ) * 100)

/-- The output of `_categorize_videos_by_type` (lines 789-814). -/
structure VideoCategorization where
  shorts_videos : List FVideo
  long_videos : List FVideo
  total_shorts : Nat
  total_long : Nat
  shorts_percentage : ℚ
  long_percentage : ℚ

/-- `_categorize_videos_by_type` (lines 789-814): split by the `video_type`
tag (unknown-typed videos fall in neither bucket) and compute each bucket's
share of the whole list as a percentage (0 for an empty list). -/
def categorizeVideosByType (videos : List FVideo) : VideoCategorization :=
  let shorts := videos.filter (fun v => v.video_type == "shorts")
  let longs := videos.filter (fun v => v.video_type == "long")
  { shorts_videos := shorts
    long_videos := longs
    total_shorts := shorts.length
    total_long := longs.length
    shorts_percentage :=
      if videos.isEmpty then 0 else (shorts.length : ℚ) / (videos.length : ℚ) * 100
    long_percentage :=
      if videos.isEmpty then 0 else (longs.length : ℚ) / (videos.length : ℚ) * 100 }

/-- `_analyze_channel_type` (lines 873-892): `shorts` at ≥ 70% shorts,
`long` at ≥ 70% long, otherwise `mixed`.  The four engagement-rate arguments
are accepted (and averaged) by the source but do not affect the result. -/
def analyzeChannelType (cat : VideoCategorization)
    (_shorts_er_6 _shorts_er_15 _long_er_6 _long_er_15 : ℚ) : String :=
  if cat.shorts_percentage ≥ 70 then "shorts"
  else if cat.long_percentage ≥ 70 then "long"
  else "mixed"

/-- The `channel_type` field of `_generate_final_metrics` (lines 821-831):
`short`/`long` follow the primary format directly; `mixed` resolves to
whichever side has the strictly higher mean of its 6- and 15-video engagement
rates, with `long` on a tie. -/
def finalChannelType (primary_format : String)
    (shorts_er_6 shorts_er_15 long_er_6 long_er_15 : ℚ) : String :=
  if primary_format = "shorts" then "short"
  else if primary_format = "long" then "long"
  else
    if (shorts_er_6 + shorts_er_15) / 2 > (long_er_6 + long_er_15) / 2
    then "short" else "long"

/-! ## The outbound JSON request (`_make_request`, lines 191-216)

The network is a script of per-attempt outcomes; each HTTP attempt consumes
the head of the script.  An exhausted script behaves like a network error. -/

/-- What one HTTP attempt can produce. -/
inductive HttpOutcome where
  | ok (body : JVal)        -- 2xx with well-formed JSON
  | badJson                 -- 2xx whose body fails `response.json()`
  | httpErr (status : Nat)  -- `raise_for_status` raises `HTTPError`
  | netErr                  -- `requests.exceptions.RequestException`

/-- `_make_request` (lines 191-216): return the parsed body on success; on an
`HTTPError` with status 429 sleep a fixed 1s and re-invoke itself (a recursive
retry with no retry bound — `self.max_retries` is never consulted); on any
other HTTP error, request exception or JSON decode error log and return
`None`.  No exception ever propagates to the caller. -/
def makeRequest : List HttpOutcome → Option JVal
  | [] => none
  | .ok body :: _ => some body
  | .badJson :: _ => none
  | .netErr :: _ => none
  | .httpErr status :: rest => if status = 429 then makeRequest rest else none

/-- What the spec's words prescribe for the same script: on HTTP 429 retry
exactly once after the fixed delay; if the retry is anything but a success,
treat the call as a transient failure (`None`).  Stated for comparison with
`makeRequest`; the source does not implement this. -/
def specMakeRequestRetryOnce (script : List HttpOutcome) : Option JVal :=
  match script with
  | .ok body :: _ => some body
  | .httpErr 429 :: .ok body :: _ => some body
  | _ => none

/-! ## The orchestrator (`get_channel_recent_videos`, lines 315-486)

The three cache-wrapped sub-calls (`get_channel_by_handle`,
`get_channel_videos_rss`, `get_videos_by_id`) are supplied as the
`CachedResult` records they return; the orchestrator's cache accounting
(lines 438-466) and its early returns (lines 319-324 and 338-351) are
modelled exactly.  The analytics assembly between the fetches is covered by the
dedicated analytics definitions above and does not influence the cache
status. -/

/-- One RSS stub as produced by `_parse_rss_video` (the fields the
orchestrator reads). -/
structure RssVideo where
  video_id : String
  video_type : String
  url : String

/-- Which of the three return shapes of `get_channel_recent_videos` was
produced. -/
inductive OrchDataShape where
  | emptyData                      -- `{'data': {}}` (channel lookup failed)
  | channelNoVideos                -- channel + `[]` videos + no-data analytics
  | fullData (video_ids : List String)

/-- The per-step cache accounting of lines 439-452. -/
structure CacheDetails where
  channel_from_cache : Bool
  channel_status : String
  rss_from_cache : Bool
  rss_status : String
  videos_from_cache : Bool
  videos_status : String

/-- The envelope `get_channel_recent_videos` returns. -/
structure OrchResult where
  dataShape : OrchDataShape
  from_cache : Bool
  cache_status : String
  cache_details : Option CacheDetails

/-- `[video['video_id'] for video in rss_videos[:max_videos] if
video.get('video_id')]` (line 336). -/
def recentVideoIds (rss_videos : List RssVideo) (max_videos : Nat) : List String :=
  ((rss_videos.take max_videos).filter (fun v => v.video_id != "")).map
    (fun v => v.video_id)

/-- `get_channel_recent_videos` (lines 315-486), projected onto the data
shape and cache accounting.  `channel_result`, `rss_result` and
`videos_result` are the envelopes of the three cached sub-calls (the last is
consulted only when detailed videos are fetched).  Returns `{'data': {},
'cache_status': 'miss'}` when the channel payload is missing or falsy;
returns the no-videos shape with a hard-coded `'miss'` when the feed yields
no usable video id; otherwise aggregates the three `from_cache` flags into
`hit`/`miss`/`partial`. -/
def getChannelRecentVideos (channel_result : CachedResult JVal)
    (rss_result : CachedResult (List RssVideo))
    (videos_result : CachedResult (List FVideo))
    (max_videos : Nat) : OrchResult :=
  match channel_result.data with
  | none => ⟨.emptyData, false, "miss", none⟩
  | some raw =>
      if !(jTruthy raw) then ⟨.emptyData, false, "miss", none⟩
      else
        let rss_videos := rss_result.data.getD []
        let video_ids := recentVideoIds rss_videos max_videos
        if video_ids.isEmpty then ⟨.channelNoVideos, false, "miss", none⟩
        else
          let details : CacheDetails :=
            ⟨channel_result.from_cache, channel_result.cache_status,
             rss_result.from_cache, rss_result.cache_status,
             videos_result.from_cache, videos_result.cache_status⟩
          let all_cached := channel_result.from_cache && rss_result.from_cache
            && videos_result.from_cache
          let none_cached := !(channel_result.from_cache || rss_result.from_cache
            || videos_result.from_cache)
          if all_cached then ⟨.fullData video_ids, true, "hit", some details⟩
          else if none_cached then ⟨.fullData video_ids, false, "miss", some details⟩
          else ⟨.fullData video_ids, false, "partial", some details⟩

/-! ## The key pool (claim C2) -/

/-- Modelled from the spec: the Key Pool component (spec §4.2) is absent from
`src/` — `api_server.py` calls `yt_handler.get_key_usage_stats()` and
`config.py` declares the rotation strategy and the daily/hourly quotas, but no
key-pool implementation ships in the repository.  A key's usage counters, per
the spec's `KeyRecord`. -/
structure KeyRecord where
  key : String
  total_requests : Nat
  daily_requests : Nat
  hourly_requests : Nat

/-- Modelled from the spec: the pool of configured keys with its quotas and
the round-robin cursor. -/
structure KeyPool where
  keys : List KeyRecord
  daily_quota : Nat
  hourly_quota : Nat
  currentIndex : Nat

/-- Modelled from the spec: the distinct `KeyPoolExhausted` failure. -/
inductive KeyPoolError where
  | exhausted
deriving DecidableEq

/-- Modelled from the spec: a key is exhausted when
`daily_requests >= daily_quota` or `hourly_requests >= hourly_quota`. -/
def KeyRecord.isExhausted (r : KeyRecord) (daily_quota hourly_quota : Nat) : Bool :=
  r.daily_requests ≥ daily_quota || r.hourly_requests ≥ hourly_quota

/-- Modelled from the spec: `next_key` under the round_robin strategy — cycle
from the cursor through all configured keys in fixed order, return the first
non-exhausted key and advance the cursor past it; fail with
`KeyPoolExhausted` when every key is exhausted. -/
def nextKey (p : KeyPool) : Except KeyPoolError (String × KeyPool) :=
  let n := p.keys.length
  match (List.range n).find? (fun i =>
      match p.keys.get? ((p.currentIndex + i) % n) with
      | some r => !(r.isExhausted p.daily_quota p.hourly_quota)
      | none => false) with
  | some i =>
      let j := (p.currentIndex + i) % n
      match p.keys.get? j with
      | some r => .ok (r.key, { p with currentIndex := (j + 1) % n })
      | none => .error .exhausted
  | none => .error .exhausted

/-! ## Helper lemmas -/

/-- After erasing a key, looking it up yields nothing. -/
theorem lookup_eraseKey {α : Type} (key : String) (l : List (String × CacheEntry α)) :
    (eraseKey key l).lookup key = none := by
  induction l with
  | nil => rfl
  | cons p rest ih =>
      obtain ⟨k, e⟩ := p
      by_cases h : k = key
      · subst h
        simpa [eraseKey, List.filter_cons] using ih
      · have hb : (key == k) = false := beq_eq_false_iff_ne.mpr (Ne.symm h)
        simpa [eraseKey, List.filter_cons, h, List.lookup, hb] using ih

/-- A get that returned nothing leaves no binding for the key behind. -/
theorem get_miss_no_binding {α : Type} (c : SimpleCache α) (key : String) (now : Nat)
    (h : (c.get key now).1 = none) : (c.get key now).2.store.lookup key = none := by
  cases hl : c.store.lookup key with
  | none => simp [SimpleCache.get, hl]
  | some entry =>
      by_cases he : entry.is_expired now
      · simp [SimpleCache.get, hl, he, lookup_eraseKey]
      · simp [SimpleCache.get, hl, he] at h

/-- A freshly set entry is returned by an immediate get, which counts a hit. -/
theorem get_after_set {α : Type} (c : SimpleCache α) (key : String) (v : α)
    (ttl now : Nat) :
    ((c.set key v ttl now).get key now).1 = some v
    ∧ ((c.set key v ttl now).get key now).2.hits = c.hits + 1 := by
  have hlu : ((c.set key v ttl now).store).lookup key = some ⟨v, now, ttl⟩ := by
    simp [SimpleCache.set, List.lookup]
  have hexp : (CacheEntry.is_expired ⟨v, now, ttl⟩ now : Bool) = false := by
    simp [CacheEntry.is_expired]
  constructor <;> simp [SimpleCache.get, SimpleCache.set, hlu, hexp]

/-! ## Claim theorems -/

/-- C5: after `set(k, v, ttl)` at time `now`, an immediate `get(k)` returns
`v` and increments `hits`; once the entry is expired (`now2 > now + ttl`),
`get(k)` returns absent, removes the entry from the store and increments
`misses`, and a subsequent `set` on the same key succeeds as if fresh. -/
theorem cache_set_get_roundtrip {α : Type} (c : SimpleCache α) (key : String)
    (v : α) (ttl now now2 : Nat) (hexp : now2 > now + ttl) :
    ((c.set key v ttl now).get key now).1 = some v
    ∧ ((c.set key v ttl now).get key now).2.hits = c.hits + 1
    ∧ ((c.set key v ttl now).get key now2).1 = none
    ∧ ((c.set key v ttl now).get key now2).2.store.lookup key = none
    ∧ ((c.set key v ttl now).get key now2).2.misses = c.misses + 1
    ∧ (∀ (v2 : α) (ttl2 now3 : Nat),
        (((((c.set key v ttl now).get key now2).2).set key v2 ttl2 now3).get
          key now3).1 = some v2) := by
  have hlu : ((c.set key v ttl now).store).lookup key = some ⟨v, now, ttl⟩ := by
    simp [SimpleCache.set, List.lookup]
  have hexp2 : (CacheEntry.is_expired ⟨v, now, ttl⟩ now2 : Bool) = true := by
    simp [CacheEntry.is_expired]
    omega
  refine ⟨(get_after_set c key v ttl now).1, (get_after_set c key v ttl now).2,
    ?_, ?_, ?_, ?_⟩
  · simp [SimpleCache.get, hlu, hexp2]
  · simp [SimpleCache.get, hlu, hexp2, lookup_eraseKey]
  · simp [SimpleCache.get, SimpleCache.set, hlu, hexp2]
  · intro v2 ttl2 now3
    exact (get_after_set _ key v2 ttl2 now3).1

/-- C5 witness: a concrete run with `ttl = 10`, set at time 0, read back at
times 0 and 11. -/
theorem cache_set_get_roundtrip_witness :
    (11 : Nat) > 0 + 10
    ∧ ((((SimpleCache.empty (α := Nat)).set "k" 7 10 0).get "k" 0).1 = some 7)
    ∧ ((((SimpleCache.empty (α := Nat)).set "k" 7 10 0).get "k" 11).1 = none) :=
  ⟨by omega,
   (cache_set_get_roundtrip SimpleCache.empty "k" 7 10 0 11 (by omega)).1,
   (cache_set_get_roundtrip SimpleCache.empty "k" 7 10 0 11 (by omega)).2.2.1⟩

/-- C10: when the underlying fetch of a cached operation produces `None`
(and the wrapper actually invoked it, i.e. the cache missed), the wrapper
returns data `None` with `from_cache` false and status `miss`, stores nothing
under the key, and an immediately repeated identical call invokes the
underlying fetch again. -/
theorem cache_none_not_stored {α : Type} (c : SimpleCache α) (key : String)
    (ttl now : Nat)
    (hcalled : (cacheResponse c key ttl now (none : Option α)).called = true) :
    (cacheResponse c key ttl now (none : Option α)).result.data = none
    ∧ (cacheResponse c key ttl now (none : Option α)).result.from_cache = false
    ∧ (cacheResponse c key ttl now (none : Option α)).result.cache_status = "miss"
    ∧ (cacheResponse c key ttl now (none : Option α)).cache.store.lookup key = none
    ∧ (cacheResponse (cacheResponse c key ttl now (none : Option α)).cache
        key ttl now (none : Option α)).called = true
    ∧ (cacheResponse (cacheResponse c key ttl now (none : Option α)).cache
        key ttl now (none : Option α)).result.data = none := by
  rcases hG : c.get key now with ⟨o, c1⟩
  cases o with
  | some v => simp [cacheResponse, hG] at hcalled
  | none =>
      have hnb : c1.store.lookup key = none := by
        have := get_miss_no_binding c key now (by rw [hG])
        rwa [hG] at this
      have hget1 : c1.get key now = (none, { c1 with misses := c1.misses + 1 }) := by
        simp [SimpleCache.get, hnb]
      simp [cacheResponse, hG, hget1, hnb]

/-- C10 witness: a fetch that produces `None` against the empty cache. -/
theorem cache_none_not_stored_witness :
    (cacheResponse (SimpleCache.empty (α := Nat)) "k" 60 0 none).called = true
    ∧ (cacheResponse (SimpleCache.empty (α := Nat)) "k" 60 0 none).result.data = none
    ∧ (cacheResponse (cacheResponse (SimpleCache.empty (α := Nat)) "k" 60 0
        none).cache "k" 60 0 none).called = true :=
  ⟨rfl,
   (cache_none_not_stored SimpleCache.empty "k" 60 0 rfl).1,
   (cache_none_not_stored SimpleCache.empty "k" 60 0 rfl).2.2.2.2.1⟩

/-- C2: when every configured key is exhausted (daily or hourly counter at or
over its quota), `next_key` fails with the distinct `KeyPoolExhausted` error
rather than returning a key.  (Key pool modelled from the spec — the
component is absent from `src/`.) -/
theorem key_pool_exhausted (p : KeyPool)
    (h : ∀ r ∈ p.keys, r.isExhausted p.daily_quota p.hourly_quota = true) :
    nextKey p = .error .exhausted := by
  have hfind : (List.range p.keys.length).find? (fun i =>
      match p.keys.get? ((p.currentIndex + i) % p.keys.length) with
      | some r => !(r.isExhausted p.daily_quota p.hourly_quota)
      | none => false) = none := by
    rw [List.find?_eq_none]
    intro i _
    cases hg : p.keys.get? ((p.currentIndex + i) % p.keys.length) with
    | none => simp
    | some r => simp [h r (List.get?_mem hg)]
  simp only [List.get?_eq_getElem?] at hfind
  simp [nextKey, hfind]

/-- C2 witness: a two-key pool with one key over its daily quota and the
other over its hourly quota. -/
theorem key_pool_exhausted_witness :
    nextKey ⟨[⟨"A", 12, 10, 0⟩, ⟨"B", 12, 0, 10⟩], 10, 10, 0⟩
      = .error .exhausted :=
  key_pool_exhausted ⟨[⟨"A", 12, 10, 0⟩, ⟨"B", 12, 0, 10⟩], 10, 10, 0⟩
    (by decide)

/-- C3 counterexample: on the script 429, 429, success the source's
`_make_request` keeps retrying and returns the third attempt's body, whereas
the claimed retry-exactly-once policy would have given up (returned `None`)
after the second 429. -/
theorem make_request_retry_counterexample :
    makeRequest [.httpErr 429, .httpErr 429, .ok (.int 7)] = some (.int 7)
    ∧ specMakeRequestRetryOnce [.httpErr 429, .httpErr 429, .ok (.int 7)] = none :=
  ⟨rfl, rfl⟩

/-- C3 amended: on HTTP 429 `_make_request` re-invokes itself after the fixed
1s delay with no retry bound, so the call's outcome is that of the remaining
script; any other HTTP error, network error or malformed JSON yields `None`;
a success yields the parsed body; no exception reaches the caller. -/
theorem make_request_behavior (script : List HttpOutcome) (body : JVal)
    (status : Nat) (hs : status ≠ 429) :
    makeRequest (.ok body :: script) = some body
    ∧ makeRequest (.badJson :: script) = none
    ∧ makeRequest (.netErr :: script) = none
    ∧ makeRequest (.httpErr 429 :: script) = makeRequest script
    ∧ makeRequest (.httpErr status :: script) = none := by
  refine ⟨rfl, rfl, rfl, by simp [makeRequest], by simp [makeRequest, hs]⟩

/-- C3 witness: a concrete 500 response and a concrete 429-then-success
script. -/
theorem make_request_behavior_witness :
    (500 : Nat) ≠ 429
    ∧ makeRequest [.httpErr 500] = none
    ∧ makeRequest [.httpErr 429, .ok .null] = makeRequest [.ok .null] :=
  ⟨by decide,
   (make_request_behavior [] .null 500 (by decide)).2.2.2.2,
   (make_request_behavior [.ok .null] .null 500 (by decide)).2.2.2.1⟩

set_option maxRecDepth 1000000

/-- C4 counterexample: the same logical call — `get_channel_by_handle` with
the single parameter `handle = "@x"` — maps to different cache keys when the
argument is passed positionally (`args = ("@x",)`) versus by keyword
(`kwargs = {'handle': '@x'}`), because line 64 hashes
`str(args + tuple(kwargs.items()))`. -/
theorem cache_key_passing_style_counterexample :
    cacheKey "get_channel_by_handle" (.cons (.str "@x") .nil) []
      ≠ cacheKey "get_channel_by_handle" .nil [("handle", .str "@x")] := by
  decide

/-- C4 amended: the cache key is a deterministic function of the operation
name and the string representation of the combined tuple of positional
arguments followed by keyword items — equal representations give equal keys
(so distinct parameter sets whose combined tuples coincide, such as
`f(1, x=2)` and `f(1, ('x', 2))`, collide), while the same logical call
passed positionally versus by keyword produces different keys. -/
theorem cache_key_deterministic (name : String) (args args2 : PyArgs)
    (kwargs kwargs2 : List (String × PyVal))
    (h : pyRepr (.tuple (args.append (kwargsItems kwargs)))
       = pyRepr (.tuple (args2.append (kwargsItems kwargs2)))) :
    cacheKey name args kwargs = cacheKey name args2 kwargs2 := by
  unfold cacheKey
  rw [h]

/-- C4 witness: the collision `f(1, x=2)` vs `f(1, ('x', 2))` — different
parameter sets, identical combined-tuple representation, same cache key. -/
theorem cache_key_deterministic_witness :
    cacheKey "f" (.cons (.int 1) .nil) [("x", .int 2)]
      = cacheKey "f"
          (.cons (.int 1)
            (.cons (.tuple (.cons (.str "x") (.cons (.int 2) .nil))) .nil)) [] :=
  cache_key_deterministic "f" _ _ _ _ rfl

/-- C8: for a non-empty language code the resolver returns the table entry
for an exact match when present; otherwise the entry for the lowercased
code; otherwise the entry for the lowercased code with everything after the
first hyphen stripped; otherwise the original code uppercased.  In
particular `es-419` against a table holding only `es` resolves to that
entry's name, and an unmatched `xx-ZZ` resolves to `XX-ZZ`. -/
theorem language_fallback_chain (m : List (String × String)) (c : String)
    (hc : c ≠ "") :
    (∀ n, m.lookup c = some n → getFullLanguageName m c = n)
    ∧ (m.lookup c = none → ∀ n, m.lookup (pyLower c) = some n →
        getFullLanguageName m c = n)
    ∧ (m.lookup c = none → m.lookup (pyLower c) = none →
        ∀ n, m.lookup (splitFirst (pyLower c) (Char.ofNat 45)) = some n →
        getFullLanguageName m c = n)
    ∧ (m.lookup c = none → m.lookup (pyLower c) = none →
        m.lookup (splitFirst (pyLower c) (Char.ofNat 45)) = none →
        getFullLanguageName m c = pyUpper c)
    ∧ getFullLanguageName [("es", "Spanish")] "es-419" = "Spanish"
    ∧ getFullLanguageName [] "xx-ZZ" = "XX-ZZ" := by
  refine ⟨?_, ?_, ?_, ?_, by decide, by decide⟩
  · intro n h
    simp [getFullLanguageName, hc, h]
  · intro h0 n h
    simp [getFullLanguageName, hc, h0, h]
  · intro h0 h1 n h
    simp [getFullLanguageName, hc, h0, h1, h]
  · intro h0 h1 h2
    simp [getFullLanguageName, hc, h0, h1, h2]

/-- C8 witness: the two fallback examples, produced through the general
theorem at concrete inputs. -/
theorem language_fallback_chain_witness :
    getFullLanguageName [("es", "Spanish")] "es-419" = "Spanish"
    ∧ getFullLanguageName [] "xx-ZZ" = "XX-ZZ" :=
  ⟨(language_fallback_chain [("es", "Spanish")] "es-419" (by decide)).2.2.2.2.1,
   (language_fallback_chain [] "xx-ZZ" (by decide)).2.2.2.2.2⟩

/-- Summing per-video `likes + comments` equals the sum of likes plus the
sum of comments. -/
theorem sum_likes_add_comments (l : List FVideo) :
    (l.map (fun v => v.like_count + v.comment_count)).sum
      = (l.map FVideo.like_count).sum + (l.map FVideo.comment_count).sum := by
  induction l with
  | nil => simp
  | cons v vs ih =>
      simp [ih]
      ring

/-- The engagement-rate formula on the main path: positive window, positive
subscriber count, non-empty list. -/
theorem engagement_rate_formula (videos : List FVideo)
    (subscriber_count video_count : Int) (hw : 0 < video_count)
    (hs : 0 < subscriber_count) (hne : videos ≠ []) :
    calculateEngagementRate videos subscriber_count video_count
      = pyRound4 (100 *
          (((((videos.take video_count.toNat).map FVideo.like_count).sum
            + (((videos.take video_count.toNat).map FVideo.comment_count)).sum
            : Int) : ℚ) / (subscriber_count : ℚ))) := by
  have hcond : (videos.isEmpty || decide (subscriber_count ≤ 0)
      || decide (video_count ≤ 0)) = false := by
    simp [List.isEmpty_iff, hne]
    omega
  have hrec : (videos.take video_count.toNat).isEmpty = false := by
    simp [List.isEmpty_iff, List.take_eq_nil_iff, hne]
    omega
  simp only [calculateEngagementRate, hcond, hrec, Bool.false_eq_true, if_false]
  rw [sum_likes_add_comments]
  congr 1
  push_cast
  ring

/-- C6: for a positive window and positive subscriber count on a non-empty
video list, the engagement rate is
`round(100 * (sum of likes + sum of comments over the first W videos) /
subscriber_count, 4)`; it is 0 when the subscriber count is non-positive or
the list is empty; and the spec's concrete example evaluates to 1.8. -/
theorem engagement_rate_spec (videos : List FVideo)
    (subscriber_count video_count : Int) :
    (0 < video_count → 0 < subscriber_count → videos ≠ [] →
      calculateEngagementRate videos subscriber_count video_count
        = pyRound4 (100 *
            (((((videos.take video_count.toNat).map FVideo.like_count).sum
              + (((videos.take video_count.toNat).map FVideo.comment_count)).sum
              : Int) : ℚ) / (subscriber_count : ℚ))))
    ∧ ((subscriber_count ≤ 0 ∨ videos = []) →
        calculateEngagementRate videos subscriber_count video_count = 0)
    ∧ calculateEngagementRate [⟨100, 10, 2, "long"⟩, ⟨50, 5, 1, "long"⟩] 1000 6
        = 9 / 5 := by
  refine ⟨fun hw hs hne => engagement_rate_formula videos subscriber_count
    video_count hw hs hne, ?_, ?_⟩
  · intro h
    have hcond : (videos.isEmpty || decide (subscriber_count ≤ 0)
        || decide (video_count ≤ 0)) = true := by
      rcases h with h | h
      · simp [h]
      · simp [h]
    simp [calculateEngagementRate, hcond]
  · rw [engagement_rate_formula _ 1000 6 (by decide) (by decide) (by simp)]
    have e1 : ((([⟨100, 10, 2, "long"⟩, ⟨50, 5, 1, "long"⟩] : List FVideo).take
        (6 : Int).toNat).map FVideo.like_count).sum = 15 := by decide
    have e2 : ((([⟨100, 10, 2, "long"⟩, ⟨50, 5, 1, "long"⟩] : List FVideo).take
        (6 : Int).toNat).map FVideo.comment_count).sum = 3 := by decide
    rw [e1, e2]
    rw [show (100 * (((15 + 3 : Int) : ℚ) / ((1000 : Int) : ℚ))) = 9 / 5 by
      norm_num]
    unfold pyRound4 roundHalfEven
    rw [show ((9 : ℚ) / 5 * 10000) = ((18000 : ℤ) : ℚ) by norm_num,
      Int.floor_intCast]
    norm_num

/-- C6 witness: the formula clause applied at the spec example, plus the
zero-subscriber guard. -/
theorem engagement_rate_spec_witness :
    calculateEngagementRate [⟨100, 10, 2, "long"⟩, ⟨50, 5, 1, "long"⟩] 1000 6
      = pyRound4 (100 *
          ((Int.cast
            (((([⟨100, 10, 2, "long"⟩, ⟨50, 5, 1, "long"⟩] : List FVideo).take
              (6 : Int).toNat).map FVideo.like_count).sum
            + ((([⟨100, 10, 2, "long"⟩, ⟨50, 5, 1, "long"⟩] : List FVideo).take
              (6 : Int).toNat).map FVideo.comment_count).sum) : ℚ)
            / ((1000 : Int) : ℚ)))
    ∧ calculateEngagementRate [] (0 : Int) (6 : Int) = 0 :=
  ⟨(engagement_rate_spec [⟨100, 10, 2, "long"⟩, ⟨50, 5, 1, "long"⟩] 1000 6).1
      (by decide) (by decide) (by simp),
   (engagement_rate_spec [] 0 6).2.1 (Or.inl (by decide))⟩

/-- The shorts and long buckets are disjoint, so their sizes sum to at most
the list length. -/
theorem shorts_long_length_le (videos : List FVideo) :
    (videos.filter (fun v => v.video_type == "shorts")).length
      + (videos.filter (fun v => v.video_type == "long")).length
      ≤ videos.length := by
  induction videos with
  | nil => simp
  | cons v vs ih =>
      simp only [List.filter_cons, List.length_cons]
      by_cases hs : (v.video_type == "shorts") = true
      · have hl : (v.video_type == "long") = false := by
          rw [beq_iff_eq] at hs
          simp [hs]
        rw [if_pos hs, if_neg (by simp [hl])]
        simp only [List.length_cons]
        omega
      · rw [if_neg hs]
        by_cases hl : (v.video_type == "long") = true
        · rw [if_pos hl]
          simp only [List.length_cons]
          omega
        · rw [if_neg hl]
          omega

/-- At least 70% long excludes 70% shorts. -/
theorem long_dominant_excludes_shorts (videos : List FVideo)
    (h : (categorizeVideosByType videos).long_percentage ≥ 70) :
    (categorizeVideosByType videos).shorts_percentage < 70 := by
  by_cases hne : videos.isEmpty = true
  · rw [List.isEmpty_iff] at hne
    subst hne
    norm_num [categorizeVideosByType] at h
  · rw [Bool.not_eq_true] at hne
    have hn : 0 < videos.length := by
      cases videos with
      | nil => simp at hne
      | cons a l => simp
    have hnq : (0 : ℚ) < (videos.length : ℚ) := by exact_mod_cast hn
    have hsum := shorts_long_length_le videos
    have hsumq : ((videos.filter (fun v => v.video_type == "shorts")).length : ℚ)
        + ((videos.filter (fun v => v.video_type == "long")).length : ℚ)
        ≤ (videos.length : ℚ) := by exact_mod_cast hsum
    simp only [categorizeVideosByType, hne, Bool.false_eq_true, if_false,
      ge_iff_le] at h ⊢
    rw [div_mul_eq_mul_div, le_div_iff₀ hnq] at h
    rw [div_mul_eq_mul_div, div_lt_iff₀ hnq]
    linarith

/-- C7: the primary format is `shorts` when the shorts share is at least 70%,
`long` when the long share is at least 70%, and `mixed` otherwise; a `mixed`
channel resolves to whichever side has the strictly higher mean of its 6- and
15-video engagement rates, with `long` chosen deterministically on a tie. -/
theorem channel_type_classification (videos : List FVideo)
    (s6 s15 l6 l15 : ℚ) :
    ((categorizeVideosByType videos).shorts_percentage ≥ 70 →
      analyzeChannelType (categorizeVideosByType videos) s6 s15 l6 l15
        = "shorts")
    ∧ ((categorizeVideosByType videos).long_percentage ≥ 70 →
      analyzeChannelType (categorizeVideosByType videos) s6 s15 l6 l15
        = "long")
    ∧ ((categorizeVideosByType videos).shorts_percentage < 70 →
      (categorizeVideosByType videos).long_percentage < 70 →
      analyzeChannelType (categorizeVideosByType videos) s6 s15 l6 l15
        = "mixed")
    ∧ (analyzeChannelType (categorizeVideosByType videos) s6 s15 l6 l15
        = "mixed" →
      ((s6 + s15) / 2 > (l6 + l15) / 2 →
        finalChannelType (analyzeChannelType (categorizeVideosByType videos)
          s6 s15 l6 l15) s6 s15 l6 l15 = "short")
      ∧ ((s6 + s15) / 2 ≤ (l6 + l15) / 2 →
        finalChannelType (analyzeChannelType (categorizeVideosByType videos)
          s6 s15 l6 l15) s6 s15 l6 l15 = "long")) := by
  refine ⟨?_, ?_, ?_, ?_⟩
  · intro h
    unfold analyzeChannelType
    rw [if_pos h]
  · intro h
    have hs := long_dominant_excludes_shorts videos h
    unfold analyzeChannelType
    rw [if_neg (not_le.mpr hs), if_pos h]
  · intro h1 h2
    unfold analyzeChannelType
    rw [if_neg (not_le.mpr h1), if_neg (not_le.mpr h2)]
  · intro hm
    rw [hm]
    constructor
    · intro hgt
      unfold finalChannelType
      rw [if_neg (by decide), if_neg (by decide), if_pos hgt]
    · intro hle
      unfold finalChannelType
      rw [if_neg (by decide), if_neg (by decide), if_neg (not_lt.mpr hle)]

/-- C7 witness: 8 shorts and 2 long (80% shorts) classify as `shorts`; a
5/5 split classifies as `mixed` and resolves by the higher average
engagement rate (here the long side, 2 > 1). -/
theorem channel_type_classification_witness :
    analyzeChannelType (categorizeVideosByType
      (List.replicate 8 ⟨0, 0, 0, "shorts"⟩
        ++ List.replicate 2 ⟨0, 0, 0, "long"⟩)) 1 1 2 2 = "shorts"
    ∧ finalChannelType (analyzeChannelType (categorizeVideosByType
        (List.replicate 5 ⟨0, 0, 0, "shorts"⟩
          ++ List.replicate 5 ⟨0, 0, 0, "long"⟩)) 1 1 2 2) 1 1 2 2 = "long" := by
  constructor
  · refine (channel_type_classification _ 1 1 2 2).1 ?_
    have e1 : (("shorts" : String) == "shorts") = true := rfl
    have e2 : (("long" : String) == "shorts") = false := rfl
    have : (categorizeVideosByType (List.replicate 8 ⟨0, 0, 0, "shorts"⟩
        ++ List.replicate 2 (⟨0, 0, 0, "long"⟩ : FVideo))).shorts_percentage
        = 80 := by
      norm_num [categorizeVideosByType, List.filter, List.replicate, e1, e2]
    rw [this]
    norm_num
  · have e1 : (("shorts" : String) == "shorts") = true := rfl
    have e2 : (("long" : String) == "shorts") = false := rfl
    have e3 : (("shorts" : String) == "long") = false := rfl
    have e4 : (("long" : String) == "long") = true := rfl
    have h5 : (categorizeVideosByType (List.replicate 5 ⟨0, 0, 0, "shorts"⟩
        ++ List.replicate 5 (⟨0, 0, 0, "long"⟩ : FVideo))).shorts_percentage
        = 50 := by
      norm_num [categorizeVideosByType, List.filter, List.replicate, e1, e2, e3, e4]
    have h6 : (categorizeVideosByType (List.replicate 5 ⟨0, 0, 0, "shorts"⟩
        ++ List.replicate 5 (⟨0, 0, 0, "long"⟩ : FVideo))).long_percentage
        = 50 := by
      norm_num [categorizeVideosByType, List.filter, List.replicate, e1, e2, e3, e4]
    have hmix : analyzeChannelType (categorizeVideosByType
        (List.replicate 5 ⟨0, 0, 0, "shorts"⟩
          ++ List.replicate 5 (⟨0, 0, 0, "long"⟩ : FVideo))) 1 1 2 2
        = "mixed" := by
      refine (channel_type_classification _ 1 1 2 2).2.2.1 ?_ ?_
      · rw [h5]; norm_num
      · rw [h6]; norm_num
    exact ((channel_type_classification _ 1 1 2 2).2.2.2 hmix).2 (by norm_num)

/-- A statistics field is benign: absent, or present with a value Python's
`int()` accepts. -/
def statFieldOk (st : List (String × JVal)) (k : String) : Prop :=
  st.lookup k = none ∨ ∃ v n, st.lookup k = some v ∧ pyInt v = some n

/-- A benign field parses (with default `d` when absent). -/
theorem statFieldOk.parse {st : List (String × JVal)} {k : String}
    (h : statFieldOk st k) (d : Int) :
    ∃ n : Int, pyInt ((st.lookup k).getD (.int d)) = some n
      ∧ (st.lookup k = none → n = d)
      ∧ ∀ v m, st.lookup k = some v → pyInt v = some m → n = m := by
  rcases h with h | ⟨v, n, hv, hn⟩
  · refine ⟨d, by simp [h, pyInt], fun _ => rfl, ?_⟩
    intro v m hv
    rw [h] at hv
    cases hv
  · refine ⟨n, by simp [hv, hn], ?_, ?_⟩
    · intro h0
      rw [h0] at hv
      cases hv
    · intro v2 m hv2 hm
      rw [hv] at hv2
      cases hv2
      rw [hn] at hm
      cases hm
      rfl

/-- C9 counterexample: a present but non-numeric statistics value makes the
formatters fail (Python `int('abc')` raises `ValueError`), rather than
defaulting to 0. -/
theorem format_statistics_counterexample :
    formatVideoStatistics
      (.obj [("statistics", .obj [("viewCount", .str "abc")])]) = none
    ∧ formatChannelStatistics
      (.obj [("statistics", .obj [("subscriberCount", .str "many")])]) = none := by
  constructor <;> rfl

/-- C9 amended: the numeric statistics fields are parsed with Python `int()`
and default to 0 when absent; when every present statistics field carries an
`int()`-accepted value, formatting succeeds (it raises on a present
non-numeric value). -/
theorem format_statistics_amended (st : List (String × JVal))
    (hv : statFieldOk st "viewCount") (hl : statFieldOk st "likeCount")
    (hc : statFieldOk st "commentCount") (hs : statFieldOk st "subscriberCount")
    (hvc : statFieldOk st "videoCount") :
    (∃ r : VideoStats,
      formatVideoStatistics (.obj [("statistics", .obj st)]) = some r
      ∧ (st.lookup "viewCount" = none → r.view_count = 0)
      ∧ (st.lookup "likeCount" = none → r.like_count = 0)
      ∧ (st.lookup "commentCount" = none → r.comment_count = 0)
      ∧ (∀ v n, st.lookup "viewCount" = some v → pyInt v = some n →
          r.view_count = n)
      ∧ (∀ v n, st.lookup "likeCount" = some v → pyInt v = some n →
          r.like_count = n)
      ∧ (∀ v n, st.lookup "commentCount" = some v → pyInt v = some n →
          r.comment_count = n))
    ∧ (∃ r : ChannelStats,
      formatChannelStatistics (.obj [("statistics", .obj st)]) = some r
      ∧ (st.lookup "viewCount" = none → r.view_count = 0)
      ∧ (st.lookup "subscriberCount" = none → r.subscriber_count = 0)
      ∧ (st.lookup "videoCount" = none → r.video_count = 0)
      ∧ (∀ v n, st.lookup "viewCount" = some v → pyInt v = some n →
          r.view_count = n)
      ∧ (∀ v n, st.lookup "subscriberCount" = some v → pyInt v = some n →
          r.subscriber_count = n)
      ∧ (∀ v n, st.lookup "videoCount" = some v → pyInt v = some n →
          r.video_count = n)) := by
  obtain ⟨nv, hnv, hnv0, hnvs⟩ := hv.parse 0
  obtain ⟨nl, hnl, hnl0, hnls⟩ := hl.parse 0
  obtain ⟨nc, hnc, hnc0, hncs⟩ := hc.parse 0
  obtain ⟨ns, hns, hns0, hnss⟩ := hs.parse 0
  obtain ⟨nvc, hnvc, hnvc0, hnvcs⟩ := hvc.parse 0
  obtain ⟨nvc1, hnvc1, hnvc10, hnvc1s⟩ := hvc.parse 1
  constructor
  · refine ⟨⟨nv, nl, nc⟩, ?_, hnv0, hnl0, hnc0, hnvs, hnls, hncs⟩
    simp [formatVideoStatistics, pyDictGet, List.lookup, hnv, hnl, hnc]
  · refine ⟨⟨nv, ns, nvc, Int.fdiv nv (max nvc1 1),
      Int.fdiv ns (max nvc1 1)⟩, ?_, hnv0, hns0, hnvc0, hnvs, hnss, hnvcs⟩
    simp [formatChannelStatistics, pyDictGet, List.lookup, hnv, hns, hnvc,
      hnvc1]

/-- C9 witness: a statistics dict with a digit-string view count, an integer
like count, and the other fields absent. -/
theorem format_statistics_amended_witness :
    (∃ r : VideoStats, formatVideoStatistics (.obj [("statistics",
      .obj [("viewCount", .str "123"), ("likeCount", .int 5)])]) = some r)
    ∧ (∃ r : ChannelStats, formatChannelStatistics (.obj [("statistics",
      .obj [("viewCount", .str "123"), ("likeCount", .int 5)])]) = some r) := by
  have h := format_statistics_amended
    [("viewCount", .str "123"), ("likeCount", .int 5)]
    (Or.inr ⟨.str "123", 123, rfl, rfl⟩) (Or.inr ⟨.int 5, 5, rfl, rfl⟩)
    (Or.inl rfl) (Or.inl rfl) (Or.inl rfl)
  obtain ⟨⟨r1, hr1, -⟩, ⟨r2, hr2, -⟩⟩ := h
  exact ⟨⟨r1, hr1⟩, ⟨r2, hr2⟩⟩

/-- C1 counterexample: with the channel and RSS fetches both served from
cache but a feed yielding no usable video id, `get_channel_recent_videos`
returns the hard-coded `cache_status = 'miss'` of lines 338-351 — it does not
reflect the two prior cache hits. -/
theorem orchestrator_no_videos_counterexample :
    (getChannelRecentVideos ⟨some (.obj [("id", .str "UC1")]), true, "hit"⟩
        ⟨some [], true, "hit"⟩ ⟨some [], false, "miss"⟩ 15).cache_status
      = "miss"
    ∧ (getChannelRecentVideos ⟨some (.obj [("id", .str "UC1")]), true, "hit"⟩
        ⟨some [], true, "hit"⟩ ⟨some [], false, "miss"⟩ 15).dataShape
      = .channelNoVideos
    ∧ (⟨some (.obj [("id", .str "UC1")]), true, "hit"⟩
        : CachedResult JVal).from_cache = true
    ∧ (⟨some [], true, "hit"⟩ : CachedResult (List RssVideo)).from_cache
      = true := by
  exact ⟨rfl, rfl, rfl, rfl⟩

/-- C1 amended: on the path that reaches all three fetch steps the overall
`cache_status` is `hit` exactly when all three sub-results came from cache,
`miss` exactly when none did, and `partial` otherwise; on the path where the
feed yields no usable video id the function returns the no-videos shape with
`cache_status` always `miss` (and `from_cache` false), regardless of the two
prior fetches. -/
theorem orchestrator_cache_status (channel_result : CachedResult JVal)
    (rss_result : CachedResult (List RssVideo))
    (videos_result : CachedResult (List FVideo)) (max_videos : Nat)
    (raw : JVal) (hdata : channel_result.data = some raw)
    (htruthy : jTruthy raw = true) :
    (recentVideoIds (rss_result.data.getD []) max_videos ≠ [] →
      ((getChannelRecentVideos channel_result rss_result videos_result
          max_videos).cache_status = "hit"
        ↔ (channel_result.from_cache ∧ rss_result.from_cache
            ∧ videos_result.from_cache))
      ∧ ((getChannelRecentVideos channel_result rss_result videos_result
          max_videos).cache_status = "miss"
        ↔ (¬channel_result.from_cache ∧ ¬rss_result.from_cache
            ∧ ¬videos_result.from_cache))
      ∧ ((getChannelRecentVideos channel_result rss_result videos_result
          max_videos).cache_status = "partial"
        ↔ (¬(channel_result.from_cache ∧ rss_result.from_cache
              ∧ videos_result.from_cache)
          ∧ ¬(¬channel_result.from_cache ∧ ¬rss_result.from_cache
              ∧ ¬videos_result.from_cache))))
    ∧ (recentVideoIds (rss_result.data.getD []) max_videos = [] →
      (getChannelRecentVideos channel_result rss_result videos_result
        max_videos).cache_status = "miss"
      ∧ (getChannelRecentVideos channel_result rss_result videos_result
          max_videos).from_cache = false
      ∧ (getChannelRecentVideos channel_result rss_result videos_result
          max_videos).dataShape = .channelNoVideos) := by
  constructor
  · intro hne
    have hie : (recentVideoIds (rss_result.data.getD []) max_videos).isEmpty
        = false := by
      simpa [List.isEmpty_iff] using hne
    refine ⟨?_, ?_, ?_⟩ <;>
    · cases hc : channel_result.from_cache <;>
        cases hr : rss_result.from_cache <;>
          cases hv : videos_result.from_cache <;>
            simp [getChannelRecentVideos, hdata, htruthy, hie, hc, hr, hv]
  · intro hq
    have hie : (recentVideoIds (rss_result.data.getD []) max_videos).isEmpty
        = true := by
      simp [List.isEmpty_iff, hq]
    refine ⟨?_, ?_, ?_⟩ <;>
      simp [getChannelRecentVideos, hdata, htruthy, hie]

/-- C1 witness: channel from cache, RSS and video details fetched live, one
usable video id — the overall status is `partial`. -/
theorem orchestrator_cache_status_witness :
    (getChannelRecentVideos ⟨some (.obj [("id", .str "UC1")]), true, "hit"⟩
      ⟨some [⟨"v1", "long", "u"⟩], false, "miss"⟩
      ⟨some [], false, "miss"⟩ 15).cache_status = "partial" := by
  have h := (orchestrator_cache_status
    ⟨some (.obj [("id", .str "UC1")]), true, "hit"⟩
    ⟨some [⟨"v1", "long", "u"⟩], false, "miss"⟩
    ⟨some [], false, "miss"⟩ 15 (.obj [("id", .str "UC1")]) rfl rfl).1
    (by decide)
  exact h.2.2.mpr (by simp)

end YT
